import Mathlib

/-!
Verification of the prometheus-global-guardian analytics core against its
design specification.

The Lean definitions below are shallow embeddings of the Python source under
`src/python-analytics-service/analytics/`:

* `unified_model.py` — `UnifiedHazardModel.calculate_severity`,
  `UnifiedHazardModel.merge_sources`;
* `pivot_table_analyzer.py` — `FourDimensionalPivotTable` (`_preprocess_data`
  derivations, `_classify_region`, `_classify_continent`,
  `multi_dimensional_query`, `trend_analysis_4d`, `risk_score_4d`,
  `create_4d_pivot`);
* `quality_monitor.py` — `DataQualityMonitor.assess_quality` and the five
  dimension checks.

Modelling conventions:

* Python floats are modelled as `ℚ` (all numbers in scope are exact decimals);
  `x / 0 = 0` in `ℚ` only ever arises where the Python guards division by a
  zero count with an `if`, and the guards are reproduced literally.
* Timestamps are rationals: days since an arbitrary epoch in the analytics
  engine (whose units are days), hours since an arbitrary epoch in the quality
  monitor (whose age buckets are in hours).  `pd.Timestamp.now()` becomes an
  explicit `now` parameter.
* `str.upper()` is modelled character-wise (`pyUpper`); all vocabulary strings
  in scope are ASCII, where Python and Lean uppercasing agree.
* `DataFrame.sort_values(col, ascending=False)` is modelled as an ascending
  stable sort followed by a reversal: pandas `nargsort` computes an ascending
  `argsort` and reverses the resulting indexer for descending order, and
  numpy's quicksort degrades to a stable insertion sort below its small-array
  threshold, which covers every dataset size appearing in a theorem about tie
  order here.  Theorems that hold for arbitrary datasets only use the
  sortedness and multiset content of the result, which are independent of the
  tie order.
* Python `round(x, 4)` is modelled as round-half-up at 4 decimals (`round4`).
  Python uses round-half-even on binary floats; the two agree except on exact
  decimal half-ties, which no claim in scope touches (every bound proved is at
  a representable integer, and every concrete score is an exact 4-decimal
  value).
-/

/-! ## Severity classification (`unified_model.py`, `UnifiedHazardModel`) -/

/-- One row of `UnifiedHazardModel.SEVERITY_THRESHOLDS`. -/
structure SevThresholds where
  low : ℚ
  medium : ℚ
  high : ℚ
  critical : ℚ
deriving DecidableEq

/-- `UnifiedHazardModel.SEVERITY_THRESHOLDS.get(hazard_type, ...['default'])`:
the per-type threshold table with its `'default'` fallback row.  The Python
table also contains the literal key `'default'`, whose row equals the fallback
row, so `.get` with fallback and this if-chain agree on every input. -/
def severityThresholds (hazardType : String) : SevThresholds :=
  if hazardType = "earthquake" then ⟨3, 5, 13/2, 15/2⟩
  else if hazardType = "wildfire" then ⟨100, 1000, 5000, 10000⟩
  else if hazardType = "flood" then ⟨0, 0, 0, 0⟩
  else ⟨0, 0, 0, 0⟩

/-- `UnifiedHazardModel.calculate_severity(hazard_type, magnitude)`: compare
the magnitude against the looked-up thresholds, highest band first. -/
def calculate_severity (hazardType : String) (magnitude : ℚ) : String :=
  if magnitude ≥ (severityThresholds hazardType).critical then "critical"
  else if magnitude ≥ (severityThresholds hazardType).high then "high"
  else if magnitude ≥ (severityThresholds hazardType).medium then "medium"
  else "low"

/-- Rank of a severity label in the ordinal scale low < medium < high <
critical used by the spec (§3, glossary). -/
def sevRank (s : String) : ℕ :=
  if s = "critical" then 3
  else if s = "high" then 2
  else if s = "medium" then 1
  else 0

/-! ## Merge/dedup engine (`unified_model.py`, `merge_sources`) -/

/-- A canonical record as far as `merge_sources` inspects it: the dedup key
columns `id` and `timestamp`, plus a payload column standing for the remaining
fields (so that "first occurrence kept" is observable). -/
structure MRecord where
  id : String
  timestamp : ℚ
  title : String
deriving DecidableEq

/-- Dedup key used by `drop_duplicates(subset=['id', 'timestamp'])`. -/
def mkey (r : MRecord) : String × ℚ := (r.id, r.timestamp)

/-- Accumulator form of first-occurrence deduplication: drop an element iff
its key was already seen. -/
def dedupByAux {α κ : Type} [DecidableEq κ] (key : α → κ) (seen : List κ) :
    List α → List α
  | [] => []
  | a :: as =>
    if key a ∈ seen then dedupByAux key seen as
    else a :: dedupByAux key (key a :: seen) as

/-- `DataFrame.drop_duplicates(subset, keep='first')` keyed by `key`, and also
pandas `Series.unique()` (first-appearance order) when `key = id`. -/
def dedupBy {α κ : Type} [DecidableEq κ] (key : α → κ) (l : List α) : List α :=
  dedupByAux key [] l

/-- `DataFrame.sort_values(col, ascending=False)` where `f` reads the sort
column: pandas argsorts ascending (stable at the sizes where tie order is ever
asserted, see the header) and reverses the indexer. -/
def pandasSortDesc {α : Type} (f : α → ℚ) (l : List α) : List α :=
  (List.insertionSort (fun a b => f a ≤ f b) l).reverse

/-- `UnifiedHazardModel.merge_sources(*dataframes)`: drop empty inputs,
concatenate, drop `(id, timestamp)` duplicates keeping the first occurrence,
sort by timestamp descending.  (`reset_index` has no counterpart on lists.) -/
def merge_sources (dataframes : List (List MRecord)) : List MRecord :=
  if dataframes.isEmpty then []
  else
    let valid := dataframes.filter (fun d => !d.isEmpty)
    if valid.isEmpty then []
    else pandasSortDesc MRecord.timestamp (dedupBy mkey valid.flatten)

/-! ## Four-dimensional analytics engine (`pivot_table_analyzer.py`) -/

/-- A record as seen by `FourDimensionalPivotTable` after the initial column
extraction of `_preprocess_data` (timestamp parsed, `lat`/`lng` present): the
original columns of the canonical schema that the engine reads.  `timestamp`
is in days since an arbitrary epoch (fractional part = time of day). -/
structure PRecord where
  id : String
  type : String
  source : String
  timestamp : ℚ
  lat : ℚ
  lng : ℚ
  magnitude : ℚ
  severity : String
deriving DecidableEq

/-- Python `str.upper()` (character-wise; ASCII in all vocabulary in scope). -/
def pyUpper (s : String) : String := ⟨s.data.map Char.toUpper⟩

/-- `FourDimensionalPivotTable._classify_region(row)`: fixed bounding boxes in
priority order, first match wins, fallback `'Other'`. -/
def classify_region (lat lng : ℚ) : String :=
  if -10 ≤ lat ∧ lat ≤ 60 ∧ 60 ≤ lng ∧ lng ≤ 180 then "Asia-Pacific"
  else if 15 ≤ lat ∧ lat ≤ 75 ∧ -170 ≤ lng ∧ lng ≤ -50 then "North America"
  else if 35 ≤ lat ∧ lat ≤ 70 ∧ -10 ≤ lng ∧ lng ≤ 60 then "Europe"
  else if -60 ≤ lat ∧ lat ≤ 15 ∧ -85 ≤ lng ∧ lng ≤ -30 then "South America"
  else if -35 ≤ lat ∧ lat ≤ 40 ∧ -20 ≤ lng ∧ lng ≤ 55 then "Africa"
  else "Other"

/-- `FourDimensionalPivotTable._classify_continent(row)`. -/
def classify_continent (lat lng : ℚ) : String :=
  if -10 ≤ lat ∧ lat ≤ 80 ∧ 25 ≤ lng ∧ lng ≤ 180 then "Asia"
  else if 15 ≤ lat ∧ lat ≤ 75 ∧ -170 ≤ lng ∧ lng ≤ -50 then "North America"
  else if 35 ≤ lat ∧ lat ≤ 70 ∧ -10 ≤ lng ∧ lng ≤ 60 then "Europe"
  else if -60 ≤ lat ∧ lat ≤ 15 ∧ -85 ≤ lng ∧ lng ≤ -30 then "South America"
  else if -35 ≤ lat ∧ lat ≤ 40 ∧ -20 ≤ lng ∧ lng ≤ 55 then "Africa"
  else if -50 ≤ lat ∧ lat ≤ -10 ∧ 110 ≤ lng ∧ lng ≤ 180 then "Oceania"
  else "Antarctica"

/-- Derived column `region` of `_preprocess_data`. -/
def PRecord.region (r : PRecord) : String := classify_region r.lat r.lng

/-- Derived column `continent` of `_preprocess_data`. -/
def PRecord.continent (r : PRecord) : String := classify_continent r.lat r.lng

/-- Derived column `type_category` of `_preprocess_data`:
`df['type'].str.upper()`. -/
def PRecord.type_category (r : PRecord) : String := pyUpper r.type

/-- Derived column `severity_level` of `_preprocess_data`:
`df['severity'].map({'WARNING': 3, 'WATCH': 2, 'ADVISORY': 1}).fillna(0)`. -/
def severity_level (s : String) : ℚ :=
  if s = "WARNING" then 3
  else if s = "WATCH" then 2
  else if s = "ADVISORY" then 1
  else 0

/-- Derived column `date_only` of `_preprocess_data` (`timestamp.dt.date`):
the calendar day containing a timestamp measured in days. -/
def PRecord.date_only (r : PRecord) : ℤ := ⌊r.timestamp⌋

/-- Derived column `lat_bin` (`(lat // 10).astype(int) * 10`). -/
def PRecord.lat_bin (r : PRecord) : ℤ := ⌊r.lat / 10⌋ * 10

/-- Derived column `lng_bin` (`(lng // 10).astype(int) * 10`). -/
def PRecord.lng_bin (r : PRecord) : ℤ := ⌊r.lng / 10⌋ * 10

/-- `df['timestamp'].max()` on a nonempty column (every use below is guarded
by a nonemptiness check, as in the source where an empty window is returned
early). -/
def maxTs : List PRecord → ℚ
  | [] => 0
  | [r] => r.timestamp
  | r :: rs => max r.timestamp (maxTs rs)

/-- The window restriction shared by `trend_analysis_4d` and `risk_score_4d`:
`df[df['timestamp'] >= df['timestamp'].max() - timedelta(days=w)]`. -/
def recentWindow (w : ℕ) (df : List PRecord) : List PRecord :=
  df.filter (fun r => decide (maxTs df - w ≤ r.timestamp))

/-- Mean of a list of rationals (`Series.mean()`); every use below is on a
nonempty list, as in the source. -/
def qmean (l : List ℚ) : ℚ := l.sum / l.length

/-- `FourDimensionalPivotTable.multi_dimensional_query(time_range, regions,
types, severities)`.  A `none` argument is Python `None`; a `some []` argument
is an empty list, which is falsy in Python, so both skip that filter.  Note
that the severity filter uppercases the *query* values but compares them
against the stored `severity` column, which `_preprocess_data` never
uppercases. -/
def multi_dimensional_query (df : List PRecord)
    (timeRange : Option (ℚ × ℚ)) (regions types severities : Option (List String)) :
    List PRecord :=
  let f1 := match timeRange with
    | none => df
    | some (s, e) => df.filter (fun r => decide (s ≤ r.timestamp) && decide (r.timestamp ≤ e))
  let f2 := match regions with
    | none => f1
    | some [] => f1
    | some gs => f1.filter (fun r => r.region ∈ gs)
  let f3 := match types with
    | none => f2
    | some [] => f2
    | some ts => f2.filter (fun r => r.type_category ∈ ts.map pyUpper)
  match severities with
    | none => f3
    | some [] => f3
    | some ss => f3.filter (fun r => r.severity ∈ ss.map pyUpper)

/-! ### `risk_score_4d` -/

/-- One element of the `risk_scores` list built by `risk_score_4d`. -/
structure RiskRow where
  region : String
  type : String
  risk_score : ℚ
  frequency : ℚ
  severity : ℚ
  recency : ℚ
  total_events : ℕ
  time_window : ℕ
deriving DecidableEq

/-- The `risk_scores` list of `risk_score_4d` before the final sort: iterate
regions and type categories in first-appearance order (`Series.unique()`),
score each nonempty (region, type) subset of the window. -/
def riskRowsUnsorted (w : ℕ) (df : List PRecord) : List RiskRow :=
  let recent := recentWindow w df
  let endDate := maxTs df
  (dedupBy id (recent.map PRecord.region)).flatMap (fun g =>
    (dedupBy id (recent.map PRecord.type_category)).filterMap (fun t =>
      let sub := recent.filter (fun r => r.region = g ∧ r.type_category = t)
      if sub.isEmpty then none
      else
        let frequencyScore : ℚ := sub.length / w
        let severityScore := qmean (sub.map (fun r => severity_level r.severity))
        let recentScore : ℚ :=
          (sub.filter (fun r => decide (endDate - 1 ≤ r.timestamp))).length * 2
        some ⟨g, t, frequencyScore * (2/5) + severityScore * (2/5) + recentScore * (1/5),
          frequencyScore, severityScore, recentScore, sub.length, w⟩))

/-- `FourDimensionalPivotTable.risk_score_4d(time_window)`: empty result on an
empty dataset or empty window, otherwise the scored rows sorted by
`risk_score` descending. -/
def risk_score_4d (w : ℕ) (df : List PRecord) : List RiskRow :=
  if (recentWindow w df).isEmpty then []
  else pandasSortDesc RiskRow.risk_score (riskRowsUnsorted w df)

/-! ### `trend_analysis_4d` -/

/-- One row of the `trend_analysis_4d` result.  The Python row also stores
`p_value`, an opaque statistic scipy derives from a t-distribution survival
function; it is transcendental, is used by no claim, and is omitted here. -/
structure TrendRow where
  region : String
  type : String
  severity : String
  total_count : ℕ
  daily_average : ℚ
  trend_slope : ℚ
  trend_direction : String
  r_squared : ℚ
deriving DecidableEq

/-- `subset.groupby('date_only').size()`: per-day event counts of a subset,
listed over the distinct days in ascending order (`groupby` sorts its keys). -/
def dailyCounts (sub : List PRecord) : List ℚ :=
  let days := List.insertionSort (fun a b : ℤ => a ≤ b) (dedupBy id (sub.map PRecord.date_only))
  days.map (fun d => ((sub.countP (fun r => r.date_only = d)) : ℚ))

/-- Slope of `scipy.stats.linregress(x, y)` with `x = arange(len(y))`:
`ssxym / ssxm` in scipy's notation.  `ssxm > 0` whenever `y` has at least two
points, which every call site guarantees (`len(daily_counts) >= 3`). -/
def linSlope (ys : List ℚ) : ℚ :=
  let xs : List ℚ := (List.range ys.length).map (fun i => (i : ℚ))
  let xbar := qmean xs
  let ybar := qmean ys
  let sxy := ((xs.zip ys).map (fun p => (p.1 - xbar) * (p.2 - ybar))).sum
  let sxx := (xs.map (fun x => (x - xbar) * (x - xbar))).sum
  sxy / sxx

/-- `r_value ** 2` of the same regression: scipy sets `r = 0` when either
variance vanishes, else `r = ssxym / sqrt(ssxm * ssym)` clamped to `[-1, 1]`;
squaring gives this rational expression (the clamp is vacuous by
Cauchy-Schwarz). -/
def linRSquared (ys : List ℚ) : ℚ :=
  let xs : List ℚ := (List.range ys.length).map (fun i => (i : ℚ))
  let xbar := qmean xs
  let ybar := qmean ys
  let sxy := ((xs.zip ys).map (fun p => (p.1 - xbar) * (p.2 - ybar))).sum
  let sxx := (xs.map (fun x => (x - xbar) * (x - xbar))).sum
  let syy := (ys.map (fun y => (y - ybar) * (y - ybar))).sum
  if sxx = 0 ∨ syy = 0 then 0 else sxy * sxy / (sxx * syy)

/-- `'increasing' if slope > 0.1 else ('decreasing' if slope < -0.1 else
'stable')`. -/
def trendDirection (slope : ℚ) : String :=
  if slope > 1/10 then "increasing"
  else if slope < -(1/10) then "decreasing"
  else "stable"

/-- `FourDimensionalPivotTable.trend_analysis_4d(time_window)`: iterate the
distinct regions, type categories and severities of the window in
first-appearance order, and emit a row for each combination whose subset is
nonempty and spans at least 3 distinct observation days.  The Python code
collects rows in a dict keyed by `f"{region}_{type}_{severity}"` and returns
them in insertion order; the canonical vocabulary contains no underscore, so
no two combinations share a key and the dict is this list. -/
def trend_analysis_4d (w : ℕ) (df : List PRecord) : List TrendRow :=
  let recent := recentWindow w df
  if recent.isEmpty then []
  else
    (dedupBy id (recent.map PRecord.region)).flatMap (fun g =>
      (dedupBy id (recent.map PRecord.type_category)).flatMap (fun t =>
        (dedupBy id (recent.map PRecord.severity)).filterMap (fun s =>
          let sub := recent.filter (fun r =>
            r.region = g ∧ r.type_category = t ∧ r.severity = s)
          if sub.isEmpty then none
          else
            let dc := dailyCounts sub
            if 3 ≤ dc.length then
              some ⟨g, t, s, sub.length, qmean dc, linSlope dc,
                trendDirection (linSlope dc), linRSquared dc⟩
            else none)))

/-- The number of distinct observation days a `(region, type, severity)`
combination has inside the window — the quantity `trend_analysis_4d` gates
each output row on. -/
def observationDays (w : ℕ) (df : List PRecord) (g t s : String) : ℕ :=
  (dedupBy id (((recentWindow w df).filter (fun r =>
    r.region = g ∧ r.type_category = t ∧ r.severity = s)).map PRecord.date_only)).length

/-! ### `create_4d_pivot`

The time features `year/quarter/month/week/day/hour/year_month` that
`_preprocess_data` derives with pandas datetime accessors are reconstructed
from the day count with the standard civil-calendar conversion (proleptic
Gregorian, day 0 = 1970-01-01).  Lean's `Int` division and modulus are
Euclidean, which coincide with floor division for the positive divisors used
throughout, i.e. with Python's `//` and `%`. -/

/-- Civil date `(year, month, day)` of a day number (days since 1970-01-01). -/
def civilFromDays (z0 : ℤ) : ℤ × ℤ × ℤ :=
  let z := z0 + 719468
  let era := z / 146097
  let doe := z - era * 146097
  let yoe := (doe - doe / 1460 + doe / 36524 - doe / 146096) / 365
  let y := yoe + era * 400
  let doy := doe - (365 * yoe + yoe / 4 - yoe / 100)
  let mp := (5 * doy + 2) / 153
  let d := doy - (153 * mp + 2) / 5 + 1
  let m := mp + (if mp < 10 then 3 else -9)
  (y + (if m ≤ 2 then 1 else 0), m, d)

/-- Day number of a civil date; inverse of `civilFromDays`. -/
def daysFromCivil (y m d : ℤ) : ℤ :=
  let y2 := y - (if m ≤ 2 then 1 else 0)
  let era := y2 / 400
  let yoe := y2 - era * 400
  let mp := (m + 9) % 12
  let doy := (153 * mp + 2) / 5 + d - 1
  let doe := yoe * 365 + yoe / 4 - yoe / 100 + doy
  era * 146097 + doe - 719468

/-- `timestamp.dt.year`. -/
def yearOfDay (z : ℤ) : ℤ := (civilFromDays z).1

/-- `timestamp.dt.month`. -/
def monthOfDay (z : ℤ) : ℤ := (civilFromDays z).2.1

/-- `timestamp.dt.day`. -/
def domOfDay (z : ℤ) : ℤ := (civilFromDays z).2.2

/-- `timestamp.dt.quarter`. -/
def quarterOfDay (z : ℤ) : ℤ := (monthOfDay z + 2) / 3

/-- ISO weekday 1..7 (Monday = 1) of a day number; day 0 was a Thursday. -/
def isoDayOfWeek (z : ℤ) : ℤ := (z + 3) % 7 + 1

/-- Number of ISO weeks in an ISO year. -/
def isoWeeksInYear (y : ℤ) : ℤ :=
  let p := fun (v : ℤ) => (v + v / 4 - v / 100 + v / 400) % 7
  52 + (if p y = 4 ∨ p (y - 1) = 3 then 1 else 0)

/-- `timestamp.dt.isocalendar().week`. -/
def isoWeekOfDay (z : ℤ) : ℤ :=
  let y := yearOfDay z
  let doy := z - daysFromCivil y 1 1 + 1
  let w := (10 + doy - isoDayOfWeek z) / 7
  if w < 1 then isoWeeksInYear (y - 1)
  else if w > isoWeeksInYear y then 1
  else w

/-- `timestamp.dt.hour` of a timestamp in days. -/
def hourOfTs (ts : ℚ) : ℤ := ⌊(ts - (⌊ts⌋ : ℚ)) * 24⌋

/-- Zero-padded two-digit month, as in a pandas `'M'` period string. -/
def pad2 (m : ℤ) : String := if m < 10 then "0" ++ toString m else toString m

/-- `timestamp.dt.to_period('M').astype(str)` — the `year_month` column. -/
def yearMonthOfDay (z : ℤ) : String :=
  toString (yearOfDay z) ++ "-" ++ pad2 (monthOfDay z)

/-- A value stored in one derived or original column of the analytics frame. -/
inductive Cell where
  | s (v : String)
  | i (v : ℤ)
  | q (v : ℚ)
deriving DecidableEq

/-- `f"({lat_bin},{lng_bin})"` — the `geo_grid` column. -/
def PRecord.geo_grid (r : PRecord) : String :=
  "(" ++ toString r.lat_bin ++ "," ++ toString r.lng_bin ++ ")"

/-- `self.df.columns` after `_preprocess_data`: the original canonical columns
followed by the derived columns in the order the preprocessing adds them. -/
def pivotColumns : List String :=
  ["id", "type", "source", "timestamp", "lat", "lng", "magnitude", "severity",
   "year", "quarter", "month", "week", "day", "hour", "date_only", "year_month",
   "region", "continent", "lat_bin", "lng_bin", "geo_grid",
   "type_category", "severity_level"]

/-- Column lookup on a preprocessed record; `none` exactly for names outside
`pivotColumns` (a missing column raises `KeyError` inside `pd.pivot_table`). -/
def getCol (r : PRecord) (c : String) : Option Cell :=
  if c = "id" then some (.s r.id)
  else if c = "type" then some (.s r.type)
  else if c = "source" then some (.s r.source)
  else if c = "timestamp" then some (.q r.timestamp)
  else if c = "lat" then some (.q r.lat)
  else if c = "lng" then some (.q r.lng)
  else if c = "magnitude" then some (.q r.magnitude)
  else if c = "severity" then some (.s r.severity)
  else if c = "year" then some (.i (yearOfDay r.date_only))
  else if c = "quarter" then some (.i (quarterOfDay r.date_only))
  else if c = "month" then some (.i (monthOfDay r.date_only))
  else if c = "week" then some (.i (isoWeekOfDay r.date_only))
  else if c = "day" then some (.i (domOfDay r.date_only))
  else if c = "hour" then some (.i (hourOfTs r.timestamp))
  else if c = "date_only" then some (.i r.date_only)
  else if c = "year_month" then some (.s (yearMonthOfDay r.date_only))
  else if c = "region" then some (.s r.region)
  else if c = "continent" then some (.s r.continent)
  else if c = "lat_bin" then some (.i r.lat_bin)
  else if c = "lng_bin" then some (.i r.lng_bin)
  else if c = "geo_grid" then some (.s r.geo_grid)
  else if c = "type_category" then some (.s r.type_category)
  else if c = "severity_level" then some (.q (severity_level r.severity))
  else none

/-- The 4-dimensional pivot table: row keys `(time, geo)`, column keys
`(type, severity)`, and one aggregated value per key pair (dense, so absent
combinations carry the `fill_value` 0). -/
structure Pivot4 where
  rowKeys : List (Cell × Cell)
  colKeys : List (Cell × Cell)
  cells : List ((Cell × Cell) × (Cell × Cell) × ℚ)
deriving DecidableEq

/-- The `pd.DataFrame()` returned by the exception handler of
`create_4d_pivot`. -/
def emptyPivot : Pivot4 := ⟨[], [], []⟩

/-- The distinct observed key pairs along one axis of the pivot (the row axis
for `(timeDim, geoDim)`, the column axis for `(typeDim, severityDim)`). -/
def pivotRowKeys (df : List PRecord) (timeDim geoDim : String) : List (Cell × Cell) :=
  dedupBy id (df.filterMap (fun r =>
    match getCol r timeDim, getCol r geoDim with
    | some a, some b => some (a, b)
    | _, _ => none))

/-- The dense cell grid of the pivot under the `count` aggregation. -/
def pivotCells (df : List PRecord) (timeDim geoDim typeDim severityDim vcol : String) :
    List ((Cell × Cell) × (Cell × Cell) × ℚ) :=
  (pivotRowKeys df timeDim geoDim).flatMap (fun rk =>
    (pivotRowKeys df typeDim severityDim).map (fun ck =>
      (rk, ck, ((df.countP (fun r =>
        getCol r timeDim = some rk.1 ∧ getCol r geoDim = some rk.2 ∧
        getCol r typeDim = some ck.1 ∧ getCol r severityDim = some ck.2 ∧
        (getCol r vcol).isSome)) : ℚ))))

/-- `FourDimensionalPivotTable.create_4d_pivot(time_dim, geo_dim, type_dim,
severity_dim, aggfunc='count', values_col)`.

Only `values_col` is validated: an unknown value column falls back to
`self.df.columns[0]`, which is `'id'`.  The four dimension names are passed to
`pd.pivot_table` unchecked; an unknown dimension name raises `KeyError` there,
the `except` block logs it and returns `pd.DataFrame()` — modelled by the
`else` branch.  The aggregation is the default `'count'` (group sizes over
non-null values of the value column; no claim exercises another aggregation
function).  pandas additionally sorts the Multi-index keys; keys are listed
here in first-appearance order, which no claim inspects. -/
def create_4d_pivot (df : List PRecord)
    (timeDim geoDim typeDim severityDim valuesCol : String) : Pivot4 :=
  if timeDim ∈ pivotColumns ∧ geoDim ∈ pivotColumns ∧
      typeDim ∈ pivotColumns ∧ severityDim ∈ pivotColumns then
    ⟨pivotRowKeys df timeDim geoDim,
     pivotRowKeys df typeDim severityDim,
     pivotCells df timeDim geoDim typeDim severityDim
       (if valuesCol ∈ pivotColumns then valuesCol else "id")⟩
  else emptyPivot

/-! ## Quality monitor (`quality_monitor.py`, `DataQualityMonitor`)

A dataset is a pandas DataFrame over (a subset of) the canonical columns the
monitor inspects; pandas columns are present or absent as a whole, and a
present column may hold nulls, hence the `QCols` presence flags plus
`Option`-valued fields per row.  Timestamps are pre-parsed rationals in hours
(`pd.to_datetime` output), `pd.Timestamp.now()` is the explicit `now`
parameter.  Only the score pipeline is modelled — the issue/recommendation
strings and per-dimension pass/fail labels do not feed back into any score. -/

/-- One row of a dataset given to `assess_quality`; `none` is a null. -/
structure QRecord where
  id : Option String
  type : Option String
  source : Option String
  timestamp : Option ℚ
  latitude : Option ℚ
  longitude : Option ℚ
  magnitude : Option ℚ
  severity : Option String
  populationExposed : Option ℚ
  confidence : Option ℚ
deriving DecidableEq

/-- Which canonical columns the DataFrame actually has. -/
structure QCols where
  id : Bool
  type : Bool
  source : Bool
  timestamp : Bool
  latitude : Bool
  longitude : Bool
  magnitude : Bool
  severity : Bool
  populationExposed : Bool
  confidence : Bool
deriving DecidableEq

/-- A dataset: column presence plus rows.  (Field values of absent columns
are never read.) -/
structure QFrame where
  cols : QCols
  rows : List QRecord
deriving DecidableEq

/-- The columns, as (presence flag, row-level non-null test) pairs, in the
canonical order. -/
def qcolSpecs : List ((QCols → Bool) × (QRecord → Bool)) :=
  [(QCols.id, fun r => r.id.isSome),
   (QCols.type, fun r => r.type.isSome),
   (QCols.source, fun r => r.source.isSome),
   (QCols.timestamp, fun r => r.timestamp.isSome),
   (QCols.latitude, fun r => r.latitude.isSome),
   (QCols.longitude, fun r => r.longitude.isSome),
   (QCols.magnitude, fun r => r.magnitude.isSome),
   (QCols.severity, fun r => r.severity.isSome),
   (QCols.populationExposed, fun r => r.populationExposed.isSome),
   (QCols.confidence, fun r => r.confidence.isSome)]

/-- `df.empty`: true when either axis has length zero. -/
def QFrame.isEmptyFrame (f : QFrame) : Bool :=
  f.rows.isEmpty || (qcolSpecs.filter (fun p => p.1 f.cols)).isEmpty

/-- Python `round(x, 4)` (see the header note on the tie convention). -/
def round4 (x : ℚ) : ℚ := ((round (x * 10000) : ℤ) : ℚ) / 10000

/-- `_check_completeness` score (before its `round`): the mean, over the
present columns, of each column's non-null fraction. -/
def completeness_score (f : QFrame) : ℚ :=
  let n := f.rows.length
  let present := qcolSpecs.filter (fun p => p.1 f.cols)
  let fracs := present.map (fun p =>
    if 0 < n then ((f.rows.countP p.2 : ℕ) : ℚ) / n else 0)
  if 0 < present.length then fracs.sum / present.length else 0

/-- One range test of `DATA_CONSTRAINTS`: null passes, `hi = none` is the
`float('inf')` upper bound of `populationExposed`. -/
def outOfRange (lo : ℚ) (hi : Option ℚ) (v : Option ℚ) : Bool :=
  match v with
  | none => false
  | some x => decide (x < lo) || (match hi with
    | none => false
    | some h => decide (h < x))

/-- `(out_of_range, non_null)` counts one constrained field contributes to
`_check_accuracy`, zero if the column is absent. -/
def rangeCount (present : Bool) (get : QRecord → Option ℚ) (lo : ℚ) (hi : Option ℚ)
    (rows : List QRecord) : ℕ × ℕ :=
  if present then
    (rows.countP (fun r => outOfRange lo hi (get r)),
     rows.countP (fun r => (get r).isSome))
  else (0, 0)

/-- `_check_accuracy` score: range checks over the five constrained fields,
plus the `(0, 0)`-coordinate check, which (when any such record exists) adds
its hits to the out-of-range count and the full row count to the checks. -/
def accuracy_score (f : QFrame) : ℚ :=
  let a := rangeCount f.cols.latitude (fun r => r.latitude) (-90) (some 90) f.rows
  let b := rangeCount f.cols.longitude (fun r => r.longitude) (-180) (some 180) f.rows
  let c := rangeCount f.cols.magnitude (fun r => r.magnitude) 0 (some 10) f.rows
  let d := rangeCount f.cols.populationExposed (fun r => r.populationExposed) 0 none f.rows
  let e := rangeCount f.cols.confidence (fun r => r.confidence) 0 (some 1) f.rows
  let zc := if f.cols.latitude && f.cols.longitude then
      f.rows.countP (fun r => r.latitude = some 0 ∧ r.longitude = some 0)
    else 0
  let z : ℕ × ℕ := if 0 < zc then (zc, f.rows.length) else (0, 0)
  let out := a.1 + b.1 + c.1 + d.1 + e.1 + z.1
  let tot := a.2 + b.2 + c.2 + d.2 + e.2 + z.2
  if 0 < tot then 1 - ((out : ℕ) : ℚ) / tot else 1

/-- The closed hazard-type vocabulary of `_check_consistency`. -/
def knownTypes : List String :=
  ["earthquake", "wildfire", "flood", "volcano", "cyclone", "storm"]

/-- The closed source vocabulary of `_check_consistency`. -/
def knownSources : List String := ["USGS", "NASA", "GDACS"]

/-- The closed severity vocabulary of `_check_consistency`. -/
def knownSeverities : List String := ["low", "medium", "high", "critical"]

/-- Membership of an optional value in a closed vocabulary; a null is *not*
in any vocabulary (pandas `isin` then counts it as unknown, matching the
NaN-matching of `isin` against a set containing NaN). -/
def knownOpt (ks : List String) (o : Option String) : Bool :=
  match o with
  | some v => v ∈ ks
  | none => false

/-- `Series.duplicated().sum()`: occurrences after the first of each value
(pandas treats equal NaNs as duplicates of each other, as does `Option`
equality here). -/
def dupExtra {κ : Type} [DecidableEq κ] (l : List κ) : ℕ :=
  l.length - (dedupBy id l).length

/-- `_check_consistency` score: `1 - inconsistencies / records`, where the
inconsistencies are duplicate ids plus values outside each closed vocabulary.
Nulls count as unknown for `type` and `source`; the severity check drops
nulls first (`dropna`), so a null severity is not counted. -/
def consistency_score (f : QFrame) : ℚ :=
  let n := f.rows.length
  let dup := if f.cols.id then dupExtra (f.rows.map (fun r => r.id)) else 0
  let unkT := if f.cols.type then
      f.rows.countP (fun r => !(knownOpt knownTypes r.type)) else 0
  let unkS := if f.cols.source then
      f.rows.countP (fun r => !(knownOpt knownSources r.source)) else 0
  let unkV := if f.cols.severity then
      f.rows.countP (fun r => match r.severity with
        | some v => !(v ∈ knownSeverities)
        | none => false)
    else 0
  if 0 < n then 1 - (((dup + unkT + unkS + unkV : ℕ)) : ℚ) / n else 1

/-- Age-bucket weight of one timestamp in `_check_timeliness` (ages in hours;
a future timestamp has a negative age and lands in the freshest bucket; a
null timestamp matches no bucket and contributes weight 0 while still being
counted in the denominator). -/
def ageWeight (now : ℚ) (o : Option ℚ) : ℚ :=
  match o with
  | none => 0
  | some t =>
    let age := now - t
    if age ≤ 24 then 1
    else if age ≤ 168 then 9/10
    else if age ≤ 720 then 7/10
    else 1/2

/-- `_check_timeliness` score: 0 when the timestamp column is absent or all
null, else the mean age-bucket weight. -/
def timeliness_score (now : ℚ) (f : QFrame) : ℚ :=
  if !f.cols.timestamp || f.rows.all (fun r => r.timestamp.isNone) then 0
  else (f.rows.map (fun r => ageWeight now r.timestamp)).sum / f.rows.length

/-- The severity/magnitude cross-check of `_check_validity`: per distinct
non-null hazard type, when some `'critical'` record has magnitude below 5 the
subthreshold count joins the invalid count and the whole critical group joins
the checks. -/
def sevMagCounts (rows : List QRecord) : ℕ × ℕ :=
  (dedupBy id (rows.filterMap (fun r => r.type))).foldr (fun t acc =>
    let low := rows.countP (fun r =>
      decide (r.type = some t) && decide (r.severity = some "critical") &&
        (match r.magnitude with
          | some m => decide (m < 5)
          | none => false))
    if 0 < low then
      (acc.1 + low,
       acc.2 + rows.countP (fun r => r.type = some t ∧ r.severity = some "critical"))
    else acc) (0, 0)

/-- `_check_validity` score: low-confidence records, the severity/magnitude
cross-check, and implausible population exposure, over the checks actually
performed. -/
def validity_score (f : QFrame) : ℚ :=
  let n := f.rows.length
  let conf : ℕ × ℕ := if f.cols.confidence then
      (f.rows.countP (fun r => match r.confidence with
        | some c => decide (c < 1/2)
        | none => false), n)
    else (0, 0)
  let sm : ℕ × ℕ := if f.cols.severity && f.cols.magnitude && f.cols.type then
      sevMagCounts f.rows
    else (0, 0)
  let pop : ℕ × ℕ := if f.cols.populationExposed then
      (f.rows.countP (fun r => match r.populationExposed with
        | some p => decide (100000000 < p)
        | none => false), n)
    else (0, 0)
  let inv := conf.1 + sm.1 + pop.1
  let tot := conf.2 + sm.2 + pop.2
  if 0 < tot then 1 - ((inv : ℕ) : ℚ) / tot else 1

/-- `DataQualityMonitor.assess_quality(df, source)['overall_score']`: 0 for an
empty frame (the dedicated empty report), else the weighted mean of the five
rounded dimension scores, rounded.  The weights are the `weights` dict of the
source: 0.25 / 0.25 / 0.20 / 0.15 / 0.15. -/
def assess_quality_score (now : ℚ) (f : QFrame) : ℚ :=
  if f.isEmptyFrame then 0
  else round4 (
    round4 (completeness_score f) * (1/4) +
    round4 (accuracy_score f) * (1/4) +
    round4 (consistency_score f) * (1/5) +
    round4 (timeliness_score now f) * (3/20) +
    round4 (validity_score f) * (3/20))

/-! ## Concrete datasets used by counterexamples and witnesses -/

/-- A single-row frame with every canonical column except `timestamp`: one
record with duplicate-free id, unknown type/source/severity, out-of-range
coordinates and magnitude, implausible population and low confidence. -/
def qrowBad : QRecord :=
  ⟨some "x", some "alien", some "ALIEN", none, some 999, some 999,
   some (-5), some "extreme", some 200000000, some (1/10)⟩

/-- The frame holding `qrowBad` (timestamp column absent). -/
def qfBad : QFrame :=
  ⟨⟨true, true, true, false, true, true, true, true, true, true⟩, [qrowBad]⟩

/-- Three records, two sharing an id with distinct timestamps. -/
def mergeD : List MRecord :=
  [⟨"a", 3, "first"⟩, ⟨"a", 2, "second"⟩, ⟨"b", 3, "third"⟩]

/-- One analytics record whose canonical severity is `'low'`. -/
def rec5 : PRecord := ⟨"e1", "earthquake", "USGS", 5, 30, 100, 6, "low"⟩

/-- Dataset for the severity-filter counterexample. -/
def df5 : List PRecord := [rec5]

/-- One record matched by every filter of the query witness. -/
def rec5w : PRecord := ⟨"w1", "earthquake", "USGS", 5, 30, 100, 6, "WARNING"⟩

/-- Dataset for the query witness. -/
def df5w : List PRecord := [rec5w]

/-- Asia-Pacific record (lat 30, lng 100) of the risk tie pair. -/
def rowAP : PRecord := ⟨"1", "earthquake", "USGS", 5, 30, 100, 6, "low"⟩

/-- North-America record (lat 40, lng -100) of the risk tie pair. -/
def rowNA : PRecord := ⟨"2", "earthquake", "USGS", 5, 40, -100, 6, "low"⟩

/-- Two records in distinct regions with identical risk scores. -/
def df6 : List PRecord := [rowAP, rowNA]

/-- The risk row of the Asia-Pacific group of `df6`. -/
def row6AP : RiskRow := ⟨"Asia-Pacific", "EARTHQUAKE", 16/35, 1/7, 0, 2, 1, 7⟩

/-- The risk row of the North-America group of `df6`. -/
def row6NA : RiskRow := ⟨"North America", "EARTHQUAKE", 16/35, 1/7, 0, 2, 1, 7⟩

/-- Three same-group records on three consecutive days. -/
def df7 : List PRecord :=
  [⟨"1", "earthquake", "USGS", 0, 30, 100, 6, "low"⟩,
   ⟨"2", "earthquake", "USGS", 1, 30, 100, 6, "low"⟩,
   ⟨"3", "earthquake", "USGS", 2, 30, 100, 6, "low"⟩]

/-- The trend row `trend_analysis_4d 7 df7` produces. -/
def trow7 : TrendRow := ⟨"Asia-Pacific", "EARTHQUAKE", "low", 3, 1, 0, "stable", 0⟩

/-- One-record dataset for the pivot fallback claims. -/
def df9 : List PRecord := [⟨"9", "earthquake", "USGS", 5, 30, 100, 6, "low"⟩]

/-- One-record dataset with a canonical severity for the risk-severity claim. -/
def df10 : List PRecord := [⟨"10", "earthquake", "USGS", 5, 30, 100, 6, "low"⟩]

/-- The risk row `risk_score_4d 7 df10` produces. -/
def row10 : RiskRow := ⟨"Asia-Pacific", "EARTHQUAKE", 16/35, 1/7, 0, 2, 1, 7⟩

/-! ## Helper lemmas -/

theorem sevRank_critical : sevRank "critical" = 3 := rfl

theorem sevRank_high : sevRank "high" = 2 := rfl

theorem sevRank_medium : sevRank "medium" = 1 := rfl

theorem sevRank_low : sevRank "low" = 0 := rfl

/-! ## C1 -/

/-- C1 counterexample: `'storm'` is not in the threshold table and the
magnitude 0 is nonnegative, yet `calculate_severity` returns `'critical'`,
not `'low'`: the zero-threshold default row makes the `critical` branch fire
first. -/
theorem C1_counterexample :
    calculate_severity "storm" 0 = "critical" ∧ calculate_severity "storm" 0 ≠ "low" := by
  constructor <;> decide

/-- C1 (amended): for every hazard type not present in the per-type threshold
table and every magnitude ≥ 0, `calculate_severity` returns `'critical'`,
because the zero-threshold default table makes any nonnegative magnitude
reach the `critical` threshold (`'low'` is only returned below 0). -/
theorem C1_amended_unknown_type_critical :
    ∀ t : String, t ∉ ["earthquake", "wildfire", "flood"] →
      ∀ m : ℚ, 0 ≤ m → calculate_severity t m = "critical" := by
  intro t ht m hm
  simp only [List.mem_cons, List.not_mem_nil, or_false, not_or] at ht
  obtain ⟨h1, h2, h3⟩ := ht
  unfold calculate_severity severityThresholds
  rw [if_neg h1, if_neg h2, if_neg h3]
  rw [if_pos hm]

/-- C1 witness: the unknown type `'storm'` at magnitude 7/2 classifies as
`'critical'`. -/
theorem C1_witness : calculate_severity "storm" (7/2) = "critical" :=
  C1_amended_unknown_type_critical "storm" (by decide) (7/2) (by norm_num)

/-! ## C3 -/

/-- C3: for a fixed hazard type, the severity rank (low < medium < high <
critical) of `calculate_severity` is monotone in the magnitude. -/
theorem C3_severity_monotone :
    ∀ (t : String) (m1 m2 : ℚ), m1 ≤ m2 →
      sevRank (calculate_severity t m1) ≤ sevRank (calculate_severity t m2) := by
  intro t m1 m2 h
  unfold calculate_severity
  split_ifs <;>
    simp only [sevRank_critical, sevRank_high, sevRank_medium, sevRank_low] <;>
    first
      | omega
      | (exfalso; linarith)

/-- C3 witness: earthquake magnitudes 4 ≤ 7 classify as low ≤ high. -/
theorem C3_witness :
    sevRank (calculate_severity "earthquake" 4) ≤ sevRank (calculate_severity "earthquake" 7) :=
  C3_severity_monotone "earthquake" 4 7 (by norm_num)

/-! ## C8 -/

/-- C8: region classification is total on the coordinate rectangle — every
latitude/longitude pair maps to exactly one of the six fixed labels, the
boxes being tried in priority order with first match winning. -/
theorem C8_region_total :
    ∀ lat lng : ℚ, -90 ≤ lat → lat ≤ 90 → -180 ≤ lng → lng ≤ 180 →
      classify_region lat lng ∈
        ["Asia-Pacific", "North America", "Europe", "South America", "Africa", "Other"] := by
  intro lat lng h1 h2 h3 h4
  unfold classify_region
  split_ifs <;> decide

/-- C8 witness: the origin (0, 0) classifies (to `'Africa'`, the first
matching box), in particular to one of the six labels. -/
theorem C8_witness :
    classify_region 0 0 ∈
      ["Asia-Pacific", "North America", "Europe", "South America", "Africa", "Other"] :=
  C8_region_total 0 0 (by norm_num) (by norm_num) (by norm_num) (by norm_num)

/-! ## C4: dedup and sort lemmas -/

theorem dedupByAux_sublist {α κ : Type} [DecidableEq κ] (key : α → κ) :
    ∀ (l : List α) (seen : List κ), (dedupByAux key seen l).Sublist l := by
  intro l
  induction l with
  | nil => intro seen; simp [dedupByAux]
  | cons a as ih =>
    intro seen
    rw [dedupByAux]
    split
    · exact (ih seen).trans (List.sublist_cons_self a as)
    · exact (ih (key a :: seen)).cons₂ a

theorem dedupByAux_not_seen {α κ : Type} [DecidableEq κ] (key : α → κ) :
    ∀ (l : List α) (seen : List κ) (r : α), r ∈ dedupByAux key seen l → key r ∉ seen := by
  intro l
  induction l with
  | nil => intro seen r hr; simp [dedupByAux] at hr
  | cons a as ih =>
    intro seen r hr
    rw [dedupByAux] at hr
    split at hr
    · exact ih seen r hr
    · rcases List.mem_cons.mp hr with h | h
      · subst h; assumption
      · intro hmem
        exact ih (key a :: seen) r h (List.mem_cons_of_mem _ hmem)

theorem dedupByAux_pairwise {α κ : Type} [DecidableEq κ] (key : α → κ) :
    ∀ (l : List α) (seen : List κ),
      (dedupByAux key seen l).Pairwise (fun a b => key a ≠ key b) := by
  intro l
  induction l with
  | nil => intro seen; simp [dedupByAux]
  | cons a as ih =>
    intro seen
    rw [dedupByAux]
    split
    · exact ih seen
    · refine List.Pairwise.cons ?_ (ih (key a :: seen))
      intro b hb
      have := dedupByAux_not_seen key as (key a :: seen) b hb
      intro hab
      exact this (hab ▸ List.mem_cons_self (key a) seen)

theorem dedupByAux_all_seen {α κ : Type} [DecidableEq κ] (key : α → κ) :
    ∀ (l : List α) (seen : List κ), (∀ b ∈ l, key b ∈ seen) → dedupByAux key seen l = [] := by
  intro l
  induction l with
  | nil => intro seen _; rfl
  | cons a as ih =>
    intro seen h
    rw [dedupByAux, if_pos (h a (List.mem_cons_self a as))]
    exact ih seen (fun b hb => h b (List.mem_cons_of_mem a hb))

theorem dedupByAux_append_covered {α κ : Type} [DecidableEq κ] (key : α → κ) :
    ∀ (xs : List α) (seen : List κ) (ys : List α),
      (∀ b ∈ ys, key b ∈ seen ∨ ∃ x ∈ xs, key x = key b) →
      dedupByAux key seen (xs ++ ys) = dedupByAux key seen xs := by
  intro xs
  induction xs with
  | nil =>
    intro seen ys h
    simp only [List.nil_append]
    rw [dedupByAux]
    exact dedupByAux_all_seen key ys seen (fun b hb => by
      rcases h b hb with hs | ⟨x, hx, _⟩
      · exact hs
      · exact absurd hx (List.not_mem_nil x))
  | cons a as ih =>
    intro seen ys h
    simp only [List.cons_append]
    rw [dedupByAux, dedupByAux]
    split
    · next ha =>
      exact ih seen ys (fun b hb => by
        rcases h b hb with hs | ⟨x, hx, hk⟩
        · exact Or.inl hs
        · rcases List.mem_cons.mp hx with rfl | hx2
          · exact Or.inl (hk ▸ ha)
          · exact Or.inr ⟨x, hx2, hk⟩)
    · next ha =>
      congr 1
      exact ih (key a :: seen) ys (fun b hb => by
        rcases h b hb with hs | ⟨x, hx, hk⟩
        · exact Or.inl (List.mem_cons_of_mem _ hs)
        · rcases List.mem_cons.mp hx with rfl | hx2
          · exact Or.inl (hk ▸ List.mem_cons_self (key x) seen)
          · exact Or.inr ⟨x, hx2, hk⟩)

theorem dedupByAux_covers {α κ : Type} [DecidableEq κ] (key : α → κ) :
    ∀ (l : List α) (seen : List κ) (r : α), r ∈ l →
      key r ∈ seen ∨ ∃ s ∈ dedupByAux key seen l, key s = key r := by
  intro l
  induction l with
  | nil => intro seen r hr; exact absurd hr (List.not_mem_nil r)
  | cons a as ih =>
    intro seen r hr
    rw [dedupByAux]
    split
    · next ha =>
      rcases List.mem_cons.mp hr with rfl | hr2
      · exact Or.inl ha
      · exact ih seen r hr2
    · next ha =>
      rcases List.mem_cons.mp hr with rfl | hr2
      · exact Or.inr ⟨r, List.mem_cons_self r _, rfl⟩
      · rcases ih (key a :: seen) r hr2 with hs | ⟨s, hs, hk⟩
        · rcases List.mem_cons.mp hs with he | hs2
          · exact Or.inr ⟨a, List.mem_cons_self a _, he.symm⟩
          · exact Or.inl hs2
        · exact Or.inr ⟨s, List.mem_cons_of_mem a hs, hk⟩

/-- `dedupBy` over a list concatenated with itself equals `dedupBy` of the
list: every key of the second copy already occurs in the first. -/
theorem dedupBy_self_append {α κ : Type} [DecidableEq κ] (key : α → κ) (l : List α) :
    dedupBy key (l ++ l) = dedupBy key l :=
  dedupByAux_append_covered key l [] l (fun b hb => Or.inr ⟨b, hb, rfl⟩)

/-- The descending pandas sort is a permutation of its input. -/
theorem pandasSortDesc_perm {α : Type} (f : α → ℚ) (l : List α) :
    (pandasSortDesc f l).Perm l :=
  (List.reverse_perm _).trans (List.perm_insertionSort _ l)

/-- The descending pandas sort is sorted by `f`, largest first. -/
theorem pandasSortDesc_sorted {α : Type} (f : α → ℚ) (l : List α) :
    (pandasSortDesc f l).Sorted (fun a b => f b ≤ f a) := by
  unfold pandasSortDesc
  rw [List.Sorted, List.pairwise_reverse]
  exact @List.sorted_insertionSort α (fun a b => f a ≤ f b) _
    ⟨fun a b => le_total (f a) (f b)⟩ ⟨fun _ _ _ h1 h2 => le_trans h1 h2⟩ l

/-! ## C4 -/

/-- C4: merging a dataset with itself keeps at most `|D|` records, leaves no
two records sharing the `(id, timestamp)` pair, returns exactly the first
occurrences of each pair of `D` (up to the final sort), sorts the result by
timestamp descending — and hence records sharing an id but with distinct
timestamps all survive, the dedup key being the pair. -/
theorem C4_merge_self_dedup :
    ∀ D : List MRecord,
      (merge_sources [D, D]).length ≤ D.length ∧
      (merge_sources [D, D]).Pairwise (fun a b => mkey a ≠ mkey b) ∧
      (merge_sources [D, D]).Sorted (fun a b => b.timestamp ≤ a.timestamp) ∧
      (merge_sources [D, D]).Perm (dedupBy mkey D) ∧
      ∀ r ∈ D, ∃ s ∈ merge_sources [D, D], mkey s = mkey r := by
  intro D
  by_cases hD : D.isEmpty
  · rw [List.isEmpty_iff] at hD
    subst hD
    refine ⟨by rfl, ?_, ?_, ?_, ?_⟩ <;> simp [merge_sources, dedupBy, dedupByAux]
  · have hmerge : merge_sources [D, D] =
        pandasSortDesc MRecord.timestamp (dedupBy mkey (D ++ D)) := by
      unfold merge_sources
      rw [if_neg (by simp), List.filter_cons, List.filter_cons]
      simp only [hD, Bool.not_false, List.filter_nil, if_true]
      rw [if_neg (by simp)]
      simp [List.flatten]
    rw [hmerge, dedupBy_self_append]
    have hperm := pandasSortDesc_perm MRecord.timestamp (dedupBy mkey D)
    refine ⟨?_, ?_, ?_, hperm, ?_⟩
    · rw [hperm.length_eq]
      exact (dedupByAux_sublist mkey D []).length_le
    · rw [hperm.pairwise_iff (fun h => (h ·.symm))]
      exact dedupByAux_pairwise mkey D []
    · exact pandasSortDesc_sorted MRecord.timestamp (dedupBy mkey D)
    · intro r hr
      rcases dedupByAux_covers mkey D [] r hr with hs | ⟨s, hs, hk⟩
      · exact absurd hs (List.not_mem_nil (mkey r))
      · exact ⟨s, hperm.mem_iff.mpr hs, hk⟩

/-- C4 witness: on a concrete dataset whose three records include two sharing
an id at distinct timestamps, the self-merge keeps all three key pairs. -/
theorem C4_witness :
    (merge_sources [mergeD, mergeD]).length ≤ mergeD.length ∧
    (∀ r ∈ mergeD, ∃ s ∈ merge_sources [mergeD, mergeD], mkey s = mkey r) :=
  ⟨(C4_merge_self_dedup mergeD).1, (C4_merge_self_dedup mergeD).2.2.2.2⟩

/-! ## C5 -/

/-- C5 counterexample: a record whose canonical severity is `'low'` is *not*
returned when filtering with `severities=['low']` — the query uppercases the
filter value to `'LOW'` but compares it against the stored lowercase
severity. -/
theorem C5_counterexample :
    rec5.severity = "low" ∧
      multi_dimensional_query df5 none none none (some ["low"]) = [] := by
  constructor <;> decide

/-- C5 (amended): with every filter supplied and nonempty, a record is
returned iff it passes the time range, its region is listed, its uppercased
type equals some uppercased type filter value (type matching is
case-insensitive), and its *stored* severity string equals some uppercased
severity filter value — so severity matching is case-insensitive only for
records whose stored severity is already uppercase. -/
theorem C5_amended_query_semantics :
    ∀ (df : List PRecord) (s e : ℚ) (gs ts ss : List String),
      gs ≠ [] → ts ≠ [] → ss ≠ [] → ∀ r : PRecord,
      (r ∈ multi_dimensional_query df (some (s, e)) (some gs) (some ts) (some ss) ↔
        (r ∈ df ∧ s ≤ r.timestamp ∧ r.timestamp ≤ e ∧ r.region ∈ gs ∧
          pyUpper r.type ∈ ts.map pyUpper ∧ r.severity ∈ ss.map pyUpper)) := by
  intro df s e gs ts ss hgs hts hss r
  match gs, ts, ss with
  | g :: gs2, t :: ts2, s1 :: ss2 =>
    simp only [multi_dimensional_query, List.mem_filter, Bool.and_eq_true,
      decide_eq_true_eq, PRecord.type_category]
    tauto

/-- C5 witness: with all filters supplied (mixed-case type filter, lowercase
severity filter against an uppercase stored severity), the record passing all
predicates is returned. -/
theorem C5_witness :
    rec5w ∈ multi_dimensional_query df5w (some (0, 10))
      (some ["Asia-Pacific"]) (some ["Earthquake"]) (some ["warning"]) :=
  (C5_amended_query_semantics df5w 0 10 ["Asia-Pacific"] ["Earthquake"] ["warning"]
    (by decide) (by decide) (by decide) rec5w).mpr (by decide)

/-! ## C9 -/

/-- Every name in `pivotColumns` resolves on every record (the derived
columns are total functions of the record). -/
theorem getCol_isSome_of_mem (r : PRecord) (c : String) (h : c ∈ pivotColumns) :
    (getCol r c).isSome := by
  simp only [pivotColumns] at h
  fin_cases h <;> rfl

/-- C9 counterexample: on a nonempty dataset, an invalid time-dimension name
does not fall back to a default column — the pivot call raises and the
handler returns the empty table. -/
theorem C9_counterexample :
    df9 ≠ [] ∧
      create_4d_pivot df9 "nonexistent" "region" "type_category" "severity" "id"
        = emptyPivot := by
  constructor
  · decide
  · rw [create_4d_pivot, if_neg]
    decide

/-- C9 (amended): only the *values* column has a fallback.  An invalid name
on any of the four dimension axes makes `create_4d_pivot` return the empty
table; with valid dimension names, an invalid values column falls back to the
first column `'id'` and the pivot is still produced (nonempty row axis
whenever the dataset is nonempty). -/
theorem C9_amended_pivot_fallback :
    (∀ (df : List PRecord) (td gd yd sd v : String),
        td ∉ pivotColumns ∨ gd ∉ pivotColumns ∨ yd ∉ pivotColumns ∨ sd ∉ pivotColumns →
        create_4d_pivot df td gd yd sd v = emptyPivot) ∧
    (∀ (df : List PRecord) (td gd yd sd v : String),
        td ∈ pivotColumns → gd ∈ pivotColumns → yd ∈ pivotColumns → sd ∈ pivotColumns →
        v ∉ pivotColumns →
        create_4d_pivot df td gd yd sd v = create_4d_pivot df td gd yd sd "id" ∧
          (df ≠ [] → (create_4d_pivot df td gd yd sd v).rowKeys ≠ [])) := by
  constructor
  · intro df td gd yd sd v h
    rw [create_4d_pivot, if_neg]
    tauto
  · intro df td gd yd sd v h1 h2 h3 h4 hv
    have hid : "id" ∈ pivotColumns := by decide
    constructor
    · rw [create_4d_pivot, create_4d_pivot, if_neg hv, if_pos hid]
    · intro hdf
      match df with
      | r :: rest =>
        rw [create_4d_pivot, if_pos ⟨h1, h2, h3, h4⟩]
        obtain ⟨a, ha⟩ := Option.isSome_iff_exists.mp (getCol_isSome_of_mem r td h1)
        obtain ⟨b, hb⟩ := Option.isSome_iff_exists.mp (getCol_isSome_of_mem r gd h2)
        simp only [pivotRowKeys, List.filterMap_cons, ha, hb, dedupBy, dedupByAux,
          List.not_mem_nil, if_false]
        exact List.cons_ne_nil _ _

/-- C9 witness: concrete instances of both fallback behaviours on a nonempty
dataset — an invalid geo dimension empties the table, while an invalid values
column only swaps in `'id'` and keeps the table nonempty. -/
theorem C9_witness :
    create_4d_pivot df9 "month" "oops" "type_category" "severity" "id" = emptyPivot ∧
    create_4d_pivot df9 "month" "region" "type_category" "severity" "bogus"
      = create_4d_pivot df9 "month" "region" "type_category" "severity" "id" ∧
    (create_4d_pivot df9 "month" "region" "type_category" "severity" "bogus").rowKeys ≠ [] :=
  ⟨C9_amended_pivot_fallback.1 df9 "month" "oops" "type_category" "severity" "id"
      (Or.inr (Or.inl (by decide))),
   (C9_amended_pivot_fallback.2 df9 "month" "region" "type_category" "severity" "bogus"
      (by decide) (by decide) (by decide) (by decide) (by decide)).1,
   (C9_amended_pivot_fallback.2 df9 "month" "region" "type_category" "severity" "bogus"
      (by decide) (by decide) (by decide) (by decide) (by decide)).2 (by decide)⟩

/-! ## C7 -/

/-- The per-day count list has one entry per distinct observation day. -/
theorem dailyCounts_length (sub : List PRecord) :
    (dailyCounts sub).length = (dedupBy id (sub.map PRecord.date_only)).length := by
  simp only [dailyCounts, List.length_map]
  exact (List.perm_insertionSort _ _).length_eq

/-- C7: every `(region, type, severity)` group present in the output of
`trend_analysis_4d` has at least 3 distinct observation days within the
window; groups with fewer days never yield a row (they are silently omitted,
not zero-filled). -/
theorem C7_trend_min_days :
    ∀ (w : ℕ) (df : List PRecord) (row : TrendRow),
      row ∈ trend_analysis_4d w df →
      3 ≤ observationDays w df row.region row.type row.severity := by
  intro w df row hmem
  rw [trend_analysis_4d] at hmem
  split at hmem
  · exact absurd hmem (List.not_mem_nil row)
  · simp only [List.mem_flatMap, List.mem_filterMap] at hmem
    obtain ⟨g, hg, t, ht, s, hs, heq⟩ := hmem
    split at heq
    · exact absurd heq (by simp)
    · split at heq
      · next hdc =>
        rw [Option.some_inj] at heq
        subst heq
        rw [dailyCounts_length] at hdc
        exact hdc
      · exact absurd heq (by simp)

/-- Evaluation of the trend analysis on the three-day dataset. -/
theorem trend_df7_eval : trend_analysis_4d 7 df7 = [trow7] := by
  have hup : pyUpper "earthquake" = "EARTHQUAKE" := by decide
  have hreg : classify_region 30 100 = "Asia-Pacific" := by decide
  norm_num [trend_analysis_4d, recentWindow, maxTs, df7, dedupBy, dedupByAux,
    dailyCounts, qmean, linSlope, linRSquared, trendDirection,
    PRecord.region, PRecord.type_category, PRecord.date_only, hup, hreg,
    trow7, max_def, List.range_succ, List.insertionSort, List.orderedInsert,
    List.filterMap_cons, List.filterMap_nil]

/-- C7 witness: the three-day single-group dataset yields its row, which
indeed spans 3 distinct days. -/
theorem C7_witness :
    3 ≤ observationDays 7 df7 trow7.region trow7.type trow7.severity :=
  C7_trend_min_days 7 df7 trow7 (trend_df7_eval ▸ List.mem_singleton.mpr rfl)

/-! ## C6 -/

/-- C6 counterexample: two (region, type) groups tie at risk score 16/35; the
`risk_scores` list generates Asia-Pacific before North America (input
iteration order), but the returned table lists North America first — the
descending sort reverses tied rows instead of keeping the stable generation
order. -/
theorem C6_counterexample :
    (riskRowsUnsorted 7 df6).map RiskRow.region = ["Asia-Pacific", "North America"] ∧
    (riskRowsUnsorted 7 df6).map RiskRow.risk_score = [16/35, 16/35] ∧
    (risk_score_4d 7 df6).map RiskRow.region = ["North America", "Asia-Pacific"] := by
  have hup : pyUpper "earthquake" = "EARTHQUAKE" := by decide
  have hAP : classify_region 30 100 = "Asia-Pacific" := by decide
  have hNA : classify_region 40 (-100) = "North America" := by decide
  have hrec : recentWindow 7 df6 = df6 := by
    norm_num [recentWindow, maxTs, df6, rowAP, rowNA, max_def]
  have hsev : severity_level "low" = 0 := by decide
  have d1 : decide ("North America" = "Asia-Pacific") = false := by decide
  have d2 : decide ("Asia-Pacific" = "North America") = false := by decide
  have d3 : decide ("Asia-Pacific" = "Asia-Pacific") = true := by decide
  have d4 : decide ("North America" = "North America") = true := by decide
  have d5 : decide ("EARTHQUAKE" = "EARTHQUAKE") = true := by decide
  have hregions : dedupBy id (List.map PRecord.region df6) = ["Asia-Pacific", "North America"] := by
    norm_num [df6, rowAP, rowNA, PRecord.region, hAP, hNA, dedupBy, dedupByAux]
    all_goals decide
  have htypes : dedupBy id (List.map PRecord.type_category df6) = ["EARTHQUAKE"] := by
    norm_num [df6, rowAP, rowNA, PRecord.type_category, hup, dedupBy, dedupByAux]
  have hrows : riskRowsUnsorted 7 df6 = [row6AP, row6NA] := by
    rw [riskRowsUnsorted, hrec, hregions, htypes]
    norm_num [df6, rowAP, rowNA, qmean, hsev,
      PRecord.region, PRecord.type_category, hup, hAP, hNA, maxTs, max_def,
      row6AP, row6NA, List.filterMap_cons, List.filter, d1, d2, d3, d4, d5]
  have hsorted : risk_score_4d 7 df6 = [row6NA, row6AP] := by
    rw [risk_score_4d, if_neg (by rw [hrec]; decide), hrows]
    norm_num [pandasSortDesc, List.insertionSort, List.orderedInsert,
      row6AP, row6NA]
  rw [hrows, hsorted]
  norm_num [row6AP, row6NA]

/-- C6 (amended): the rows of `risk_score_4d` are ordered non-increasing by
`risk_score`; the tie order is *not* the stable generation order (pandas
argsorts ascending and reverses, so tied rows come out reversed at these
sizes). -/
theorem C6_amended_risk_sorted :
    ∀ (w : ℕ) (df : List PRecord), 0 < w →
      (risk_score_4d w df).Sorted (fun a b => b.risk_score ≤ a.risk_score) := by
  intro w df hw
  rw [risk_score_4d]
  split
  · exact List.sorted_nil
  · exact pandasSortDesc_sorted RiskRow.risk_score (riskRowsUnsorted w df)

/-- C6 witness: the sortedness theorem applied to the concrete tie dataset. -/
theorem C6_witness :
    (risk_score_4d 7 df6).Sorted (fun a b => b.risk_score ≤ a.risk_score) :=
  C6_amended_risk_sorted 7 df6 (by decide)

/-! ## C10 -/

/-- C10: the canonical severities the unified model produces (`low`, `medium`,
`high`, `critical`) all map to `severity_level` 0 — only `WARNING`, `WATCH`,
`ADVISORY` map to 3/2/1 and everything else is filled with 0 — and
consequently the mean-severity component of every `risk_score_4d` row is 0
whenever the dataset consists solely of canonical-severity records. -/
theorem C10_canonical_severity_level_zero :
    (∀ s ∈ knownSeverities, severity_level s = 0) ∧
    ∀ (w : ℕ) (df : List PRecord) (row : RiskRow),
      (∀ r ∈ df, r.severity ∈ knownSeverities) → row ∈ risk_score_4d w df →
      row.severity = 0 := by
  constructor
  · intro s hs
    fin_cases hs <;> rfl
  · intro w df row hcanon hmem
    rw [risk_score_4d] at hmem
    split at hmem
    · exact absurd hmem (List.not_mem_nil row)
    · rw [(pandasSortDesc_perm RiskRow.risk_score (riskRowsUnsorted w df)).mem_iff] at hmem
      rw [riskRowsUnsorted] at hmem
      simp only [List.mem_flatMap, List.mem_filterMap] at hmem
      obtain ⟨g, hg, t, ht, heq⟩ := hmem
      split at heq
      · exact absurd heq (by simp)
      · rw [Option.some_inj] at heq
        subst heq
        have hall : ∀ x ∈ List.map (fun r => severity_level r.severity)
            ((recentWindow w df).filter (fun r => r.region = g ∧ r.type_category = t)),
            x = 0 := by
          intro x hx
          simp only [List.mem_map] at hx
          obtain ⟨r, hr, rfl⟩ := hx
          have h1 : r ∈ recentWindow w df := (List.mem_filter.mp hr).1
          rw [recentWindow] at h1
          have h2 : r ∈ df := (List.mem_filter.mp h1).1
          have h3 := hcanon r h2
          simp only [knownSeverities, List.mem_cons, List.not_mem_nil, or_false] at h3
          rcases h3 with h | h | h | h <;> simp [severity_level, h]
        show qmean _ = 0
        rw [qmean, List.sum_eq_zero hall, zero_div]

/-- C10 witness: `'low'` maps to level 0, and the risk row of the
all-canonical one-record dataset has severity component 0. -/
theorem C10_witness : severity_level "low" = 0 ∧ row10.severity = 0 := by
  refine ⟨C10_canonical_severity_level_zero.1 "low" (by decide),
    C10_canonical_severity_level_zero.2 7 df10 row10 (by decide) ?_⟩
  have hup : pyUpper "earthquake" = "EARTHQUAKE" := by decide
  have hAP : classify_region 30 100 = "Asia-Pacific" := by decide
  have hsev : severity_level "low" = 0 := by decide
  have hrec : recentWindow 7 df10 = df10 := by
    norm_num [recentWindow, maxTs, df10, max_def]
  have hrows : riskRowsUnsorted 7 df10 = [row10] := by
    rw [riskRowsUnsorted, hrec]
    norm_num [df10, dedupBy, dedupByAux, qmean, PRecord.region,
      PRecord.type_category, hup, hAP, hsev, maxTs, max_def, row10,
      List.filterMap_cons, List.filter]
  rw [risk_score_4d, if_neg (by rw [hrec]; decide), hrows]
  norm_num [pandasSortDesc, List.insertionSort, List.orderedInsert]

/-! ## C2 -/

/-- `round4` of a value that is already an exact 4-decimal fraction. -/
theorem round4_int (q : ℚ) (n : ℤ) (h : q * 10000 = (n : ℚ)) :
    round4 q = (n : ℚ) / 10000 := by
  rw [round4, h, round_intCast]

/-- C2 counterexample: on the one-record frame `qfBad` the overall quality
score is -1/20, outside [0, 1] — the consistency inconsistency count
(unknown type + unknown source + unknown severity = 3) exceeds the single
record, driving the consistency score to -2 and the weighted total negative. -/
theorem C2_counterexample : assess_quality_score 0 qfBad < 0 := by
  have hcomp : completeness_score qfBad = 1 := by
    norm_num [completeness_score, qcolSpecs, qfBad, qrowBad, List.filter,
      List.countP_cons, List.countP_nil]
  have hacc : accuracy_score qfBad = 2/5 := by
    norm_num [accuracy_score, rangeCount, outOfRange, qfBad, qrowBad,
      List.countP_cons, List.countP_nil]
  have hcons : consistency_score qfBad = -2 := by
    norm_num [consistency_score, dupExtra, dedupBy, dedupByAux, knownOpt,
      knownTypes, knownSources, knownSeverities, qfBad, qrowBad,
      List.countP_cons, List.countP_nil]
    rw [if_pos (by decide), if_pos (by decide), if_pos (by decide)]
    norm_num
  have htim : timeliness_score 0 qfBad = 0 := by
    norm_num [timeliness_score, qfBad]
  have hval : validity_score qfBad = 0 := by
    have hx : ¬("extreme" = "critical") := by decide
    norm_num [validity_score, sevMagCounts, qfBad, qrowBad, dedupBy, dedupByAux,
      List.countP_cons, List.countP_nil, List.filterMap_cons, hx]
  rw [assess_quality_score, if_neg (by decide), hcomp, hacc, hcons, htim, hval]
  rw [round4_int 1 10000 (by norm_num), round4_int (2/5) 4000 (by norm_num),
    round4_int (-2) (-20000) (by norm_num), round4_int 0 0 (by norm_num)]
  have hsum : ((10000 : ℤ) : ℚ) / 10000 * (1/4) + ((4000 : ℤ) : ℚ) / 10000 * (1/4) +
      ((-20000 : ℤ) : ℚ) / 10000 * (1/5) + ((0 : ℤ) : ℚ) / 10000 * (3/20) +
      ((0 : ℤ) : ℚ) / 10000 * (3/20) = -1/20 := by norm_num
  rw [hsum, round4_int (-1/20) (-500) (by norm_num)]
  norm_num

/-- Each column fraction is at most 1, so the completeness mean is. -/
theorem completeness_score_le_one (f : QFrame) : completeness_score f ≤ 1 := by
  rw [completeness_score]
  split
  · next h =>
    rw [div_le_one (by exact_mod_cast h)]
    have hb : ∀ x ∈ (qcolSpecs.filter (fun p => p.1 f.cols)).map
        (fun p => if 0 < f.rows.length
          then ((f.rows.countP p.2 : ℕ) : ℚ) / f.rows.length else 0), x ≤ 1 := by
      intro x hx
      simp only [List.mem_map] at hx
      obtain ⟨p, hp, rfl⟩ := hx
      split
      · next hn =>
        apply div_le_one_of_le₀
        · exact_mod_cast List.countP_le_length p.2
        · positivity
      · norm_num
    calc ((qcolSpecs.filter (fun p => p.1 f.cols)).map
        (fun p => if 0 < f.rows.length
          then ((f.rows.countP p.2 : ℕ) : ℚ) / f.rows.length else 0)).sum
        ≤ ((qcolSpecs.filter (fun p => p.1 f.cols)).map
            (fun p => if 0 < f.rows.length
              then ((f.rows.countP p.2 : ℕ) : ℚ) / f.rows.length else 0)).length • (1 : ℚ) :=
          List.sum_le_card_nsmul _ 1 hb
      _ = ((qcolSpecs.filter (fun p => p.1 f.cols)).length : ℚ) := by
          rw [List.length_map]; simp
  · norm_num

/-- `1 - out/total` never exceeds 1. -/
theorem accuracy_score_le_one (f : QFrame) : accuracy_score f ≤ 1 := by
  rw [accuracy_score]
  repeat' split
  all_goals first
    | exact sub_le_self 1 (by positivity)
    | norm_num

/-- `1 - inconsistencies/records` never exceeds 1. -/
theorem consistency_score_le_one (f : QFrame) : consistency_score f ≤ 1 := by
  rw [consistency_score]
  repeat' split
  all_goals first
    | exact sub_le_self 1 (by positivity)
    | norm_num

/-- Every age-bucket weight is at most 1. -/
theorem ageWeight_le_one (now : ℚ) (o : Option ℚ) : ageWeight now o ≤ 1 := by
  cases o with
  | none => simp [ageWeight]
  | some t =>
    simp only [ageWeight]
    split_ifs <;> norm_num

/-- The timeliness mean weight never exceeds 1. -/
theorem timeliness_score_le_one (now : ℚ) (f : QFrame) : timeliness_score now f ≤ 1 := by
  rw [timeliness_score]
  split
  · norm_num
  · next h =>
    have hne : f.rows ≠ [] := by
      intro he
      rw [he] at h
      simp at h
    have hlen : 0 < f.rows.length := List.length_pos.mpr hne
    rw [div_le_one (by exact_mod_cast hlen)]
    have hb : ∀ x ∈ f.rows.map (fun r => ageWeight now r.timestamp), x ≤ 1 := by
      intro x hx
      simp only [List.mem_map] at hx
      obtain ⟨r, _, rfl⟩ := hx
      exact ageWeight_le_one now r.timestamp
    calc (f.rows.map (fun r => ageWeight now r.timestamp)).sum
        ≤ (f.rows.map (fun r => ageWeight now r.timestamp)).length • (1 : ℚ) :=
          List.sum_le_card_nsmul _ 1 hb
      _ = (f.rows.length : ℚ) := by rw [List.length_map]; simp

/-- `1 - invalid/checks` never exceeds 1. -/
theorem validity_score_le_one (f : QFrame) : validity_score f ≤ 1 := by
  rw [validity_score]
  repeat' split
  all_goals first
    | exact sub_le_self 1 (by positivity)
    | norm_num

/-- Rounding to 4 decimals preserves the bound at 1. -/
theorem round4_le_one {q : ℚ} (h : q ≤ 1) : round4 q ≤ 1 := by
  rw [round4]
  have h2 : round (q * 10000) ≤ round ((10000 : ℚ)) := by
    rw [round_eq, round_eq]
    exact Int.floor_le_floor (by linarith)
  have h3 : round ((10000 : ℚ)) = 10000 := by simp
  rw [div_le_one (by norm_num)]
  exact_mod_cast h2.trans_eq h3

/-- C2 (amended): the overall quality score never exceeds 1 (it is 0 on an
empty frame and a weighted mean of dimension scores that are each at most 1),
but it is *not* bounded below by 0: the consistency dimension can drive it
negative when the inconsistency count exceeds the record count. -/
theorem C2_amended_score_le_one :
    ∀ (now : ℚ) (f : QFrame), assess_quality_score now f ≤ 1 := by
  intro now f
  rw [assess_quality_score]
  split
  · norm_num
  · apply round4_le_one
    have c1 := round4_le_one (completeness_score_le_one f)
    have c2 := round4_le_one (accuracy_score_le_one f)
    have c3 := round4_le_one (consistency_score_le_one f)
    have c4 := round4_le_one (timeliness_score_le_one now f)
    have c5 := round4_le_one (validity_score_le_one f)
    linarith
